import Mathlib

/-!
Verification of the candidate-measurement / promotion-decision core of
`src/yx3.py` (with the shared port-allocation helper also present in
`src/main.py`).

Speeds are modelled as rationals (the Python code uses floats only for
division and comparison of measured throughput values; no claim under
study depends on rounding behaviour).  Subprocess interactions (curl,
the ephemeral xray process, the port-availability check) are modelled
as oracles describing the outcome the environment produced, and the
functions under verification are the exact translations of the Python
control flow that consumes those outcomes.
-/

namespace Yx3

/-- One measurement record, as built by `run_speed_test` /
`perform_single_curl_speedtest` in `src/yx3.py` (the constant
`server = 'Self-built'` field is omitted: no code path reads it). -/
structure SpeedResult where
  ip : String
  speed : ℚ
  status : String
deriving Repr, DecidableEq

namespace Config

/-- `Config.MIN_IMPROVEMENT_THRESHOLD = 10.0` (Mbit/s). -/
def MIN_IMPROVEMENT_THRESHOLD : ℚ := 10

/-- `Config.MIN_IMPROVEMENT_PERCENTAGE = 12.0` (%). -/
def MIN_IMPROVEMENT_PERCENTAGE : ℚ := 12

/-- `Config.MIN_HAIXUAN_IPS = 50`. -/
def MIN_HAIXUAN_IPS : ℕ := 50

/-- `Config.ROUND1_CANDIDATES = 10`. -/
def ROUND1_CANDIDATES : ℕ := 10

/-- `Config.ROUND1_TEST_COUNT = 5`. -/
def ROUND1_TEST_COUNT : ℕ := 5

/-- `Config.ROUND1_PASSES = 2`. -/
def ROUND1_PASSES : ℕ := 2

/-- `Config.ROUND2_CANDIDATES = 3`. -/
def ROUND2_CANDIDATES : ℕ := 3

/-- `Config.DEFAULT_TEMP_SOCKS_PORT = 20808`. -/
def DEFAULT_TEMP_SOCKS_PORT : ℕ := 20808

end Config

/-- Outcome of one `subprocess.run(curl ...)` invocation, as far as
`perform_single_curl_speedtest` inspects it.
`completed rc m`: the subprocess finished with return code `rc`;
  `m = none` means the `time_total=` / `size_download=` markers were
  absent from stdout; `m = some none` means the markers were present
  but extracting the two floats raised `ValueError`;
  `m = some (some (t, s))` means `time_total` parsed to `t` and
  `size_download` parsed to `s`.
`processTimeout`: `subprocess.TimeoutExpired` was raised.
`exn n`: any other exception of type name `n` was raised. -/
inductive CurlRun where
  | completed (returncode : Int) (stdoutMetrics : Option (Option (ℚ × ℚ)))
  | processTimeout
  | exn (name : String)
deriving Repr, DecidableEq

/-- The throughput computed inside the `returncode == 0` branch of
`perform_single_curl_speedtest`:
`speed_bytes_per_sec = size_download / time_total`;
`speed_mbits_per_sec = (speed_bytes_per_sec * 8) / (1000 * 1000)`,
with `0` when `time_total <= 0` or when parsing raised. -/
def curlParsedSpeed (parse : Option (ℚ × ℚ)) : ℚ :=
  match parse with
  | some (t, s) => if 0 < t then s / t * 8 / (1000 * 1000) else 0
  | none => 0

/-- Translation of `perform_single_curl_speedtest` (src/yx3.py:390-441).
The guard in the source is
`res.returncode == 0 and 'time_total=' in res.stdout and 'size_download=' in res.stdout`;
when it fails, code 28 maps to `Curl Timeout` and any other code to
`Curl Failed (Code:rc)`. -/
def perform_single_curl_speedtest (ip : String) (run : CurlRun) : SpeedResult :=
  match run with
  | .completed rc (some parse) =>
    if rc = 0 then
      let speed := curlParsedSpeed parse
      if 0 < speed then ⟨ip, speed, "OK"⟩ else ⟨ip, speed, "Result is 0"⟩
    else if rc = 28 then ⟨ip, 0, "Curl Timeout"⟩
    else ⟨ip, 0, "Curl Failed (Code:" ++ toString rc ++ ")"⟩
  | .completed rc none =>
    if rc = 28 then ⟨ip, 0, "Curl Timeout"⟩
    else ⟨ip, 0, "Curl Failed (Code:" ++ toString rc ++ ")"⟩
  | .processTimeout => ⟨ip, 0, "Process Timeout"⟩
  | .exn n => ⟨ip, 0, "Exception: " ++ n⟩

/-- Hypothesis under which the probe claims are stated: a parsed
`size_download` is a byte count reported by curl, hence nonnegative. -/
def curlSizeNonneg : CurlRun → Prop
  | .completed _ (some (some (_, s))) => 0 ≤ s
  | _ => True

/-- The success test applied to each probe inside `run_speed_test`
(src/yx3.py:343): `test_result['status'] == 'OK' and test_result['speed'] > 0`. -/
def isSuccess (r : SpeedResult) : Bool :=
  decide (r.status = "OK" ∧ 0 < r.speed)

/-- What one probe contributes to the `speeds` list built by
`run_speed_test`: its measured speed on success, `0.0` otherwise
(src/yx3.py:343-348). -/
def probeContribution (r : SpeedResult) : ℚ :=
  if isSuccess r then r.speed else 0

/-- The probe loop and aggregation of `run_speed_test`
(src/yx3.py:336-366), after the temporary proxy was brought up
successfully.  `probe i` is the result of the `i`-th
`perform_single_curl_speedtest` call.  The average is always taken
over `test_count` (failed probes count as `0.0`), and `final_status`
is the status of the last probe (`"Unknown"` before any probe ran). -/
def run_speed_test_core (ip : String) (probe : ℕ → SpeedResult) (test_count : ℕ) : SpeedResult :=
  let results := (List.range test_count).map probe
  let speeds := results.map probeContribution
  let successful_tests := (results.filter isSuccess).length
  let final_status := (results.map (fun r => r.status)).getLastD "Unknown"
  let average_speed := speeds.sum / (test_count : ℚ)
  if 0 < successful_tests then ⟨ip, average_speed, "OK"⟩
  else ⟨ip, average_speed, "All Failed (" ++ final_status ++ ")"⟩

/-- How the setup phase of `run_speed_test` ended.
`configWriteFailed`: `update_xray_config_file` returned `False`
(src/yx3.py:314-316); `xrayStartFailed`: the SOCKS port was still free
after starting xray (src/yx3.py:327-333); `unexpectedError m`: the
`except Exception` path (src/yx3.py:369-372); `ok`: the probe loop ran. -/
inductive AcquirePhase where
  | configWriteFailed
  | xrayStartFailed
  | ok
  | unexpectedError (msg : String)
deriving Repr, DecidableEq

/-- Full result of one `run_speed_test` call (src/yx3.py:304-388):
an early-exit status with speed `0.0` when setup failed, otherwise the
aggregated probe loop. -/
def run_speed_test (ip : String) (acq : AcquirePhase) (probe : ℕ → SpeedResult)
    (test_count : ℕ) : SpeedResult :=
  match acq with
  | .configWriteFailed => ⟨ip, 0, "Config Failed"⟩
  | .xrayStartFailed => ⟨ip, 0, "Xray Start Failed"⟩
  | .unexpectedError m => ⟨ip, 0, "Unexpected Error: " ++ m⟩
  | .ok => run_speed_test_core ip probe test_count

/-- The per-IP entry that `main` seeds into `round1_best_results`
(src/yx3.py:559): `{'ip': ip, 'speed': 0.0, 'status': 'Not Tested'}`. -/
def round1_initial (ip : String) : SpeedResult :=
  ⟨ip, 0, "Not Tested"⟩

/-- The update applied for each pass (src/yx3.py:569-571): replace the
stored best result only when the new pass is strictly faster. -/
def round1_fold (best r : SpeedResult) : SpeedResult :=
  if best.speed < r.speed then r else best

/-- The recorded round-1 result of one IP after all passes.  The
source iterates pass-major over all IPs updating a per-IP dict entry
(src/yx3.py:562-571); since each entry is only read and written for
its own IP, that is the same as this per-IP left fold over the list of
that IP's pass results. -/
def round1_best (ip : String) (passResults : List SpeedResult) : SpeedResult :=
  passResults.foldl round1_fold (round1_initial ip)

/-- The list of per-pass `run_speed_test` results for one IP:
`acq p` / `probe p` describe how the `p`-th pass (0-based) went. -/
def round1_passResults (ip : String) (acq : ℕ → AcquirePhase)
    (probe : ℕ → ℕ → SpeedResult) (passes test_count : ℕ) : List SpeedResult :=
  (List.range passes).map (fun p => run_speed_test ip (acq p) (probe p) test_count)

/-- `sorted(results, key=lambda x: x['speed'], reverse=True)`
(src/yx3.py:577 and src/yx3.py:599).  Python's sort is stable and
`reverse=True` keeps equal-key elements in input order, so it computes
the stable merge sort under the comparison `b.speed ≤ a.speed`. -/
def sort_by_speed_desc (l : List SpeedResult) : List SpeedResult :=
  l.mergeSort (fun a b => decide (b.speed ≤ a.speed))

/-- Outcome of `analyze_and_decide` (src/yx3.py:464-532).
`scriptExit`: empty result list, `print_error(..., exit_script=True)`;
`noValidCandidate`: the best speed is `0.0`, return without updating;
`keep` / `promote`: the `should_update` branch taken. -/
inductive Decision where
  | scriptExit
  | noValidCandidate
  | keep
  | promote
deriving Repr, DecidableEq

/-- The `should_update` predicate (src/yx3.py:517-521).  In the source
`improvement_percentage` is `float('inf')` when `baseline.speed ≤ 0`,
but that value is only consulted under the conjunct
`baseline['speed'] > 0`, so the formula can be inlined there. -/
def should_update (best baseline : SpeedResult) : Bool :=
  decide (baseline.status ≠ "OK")
    || decide (Config.MIN_IMPROVEMENT_THRESHOLD ≤ best.speed - baseline.speed)
    || (decide (0 < baseline.speed)
        && decide (Config.MIN_IMPROVEMENT_PERCENTAGE
            ≤ (best.speed - baseline.speed) / baseline.speed * 100))

/-- Decision part of `analyze_and_decide` (src/yx3.py:464-532).  The
CSV archiving and console output have no influence on the decision and
are not modelled. -/
def analyze_and_decide (final_round_results : List SpeedResult)
    (baseline : SpeedResult) : Decision :=
  match final_round_results with
  | [] => .scriptExit
  | best :: _ =>
    if best.speed = 0 then .noValidCandidate
    else if should_update best baseline then .promote else .keep

/-- `get_baseline_performance` (src/yx3.py:443-462): `currentIp = none`
models `get_ip_from_config` failing; otherwise the current IP is
measured once with `run_speed_test(..., 1, ...)` and a non-OK or
zero-speed outcome has its speed forced to `0.0`. -/
def get_baseline_performance (currentIp : Option String) (acq : AcquirePhase)
    (probe : ℕ → SpeedResult) : SpeedResult :=
  match currentIp with
  | none => ⟨"N/A", 0, "Config Error"⟩
  | some ip =>
    let result := run_speed_test ip acq probe 1
    if result.status = "OK" ∧ 0 < result.speed then result
    else ⟨result.ip, 0, result.status⟩

/-- How one iteration of the `while True` loop in `main`
(src/yx3.py:539-613) ends.
`exitProcess`: `sys.exit` was reached inside the iteration;
`retryAfterShortDelay`: `time.sleep(5); continue` — the run is
abandoned and the loop restarts without the configured
`LOOP_INTERVAL_SECONDS` inter-run delay;
`finishRun d`: the iteration ran to completion with decision `d` and
then sleeps `LOOP_INTERVAL_SECONDS`. -/
inductive LoopStep where
  | exitProcess
  | retryAfterShortDelay
  | finishRun (d : Decision)
deriving Repr, DecidableEq

/-- The fatal pre-stage checks of one iteration: in the skip branch,
`result.csv` must exist; otherwise the scan must have produced results
and found at least `MIN_HAIXUAN_IPS` responsive IPs. -/
def screening_fails (skipSelection resultCsvExists scanOk : Bool)
    (haixuanCount : ℕ) : Bool :=
  if skipSelection then !resultCsvExists
  else !scanOk || decide (haixuanCount < Config.MIN_HAIXUAN_IPS)

/-- The round-1 result list (src/yx3.py:556-574): the first
`ROUND1_CANDIDATES` candidate IPs, each measured over `ROUND1_PASSES`
passes of `ROUND1_TEST_COUNT` probes with the best pass kept. -/
def round1_results_of (candidates : List String)
    (acq1 : String → ℕ → AcquirePhase)
    (probe1 : String → ℕ → ℕ → SpeedResult) : List SpeedResult :=
  (candidates.take Config.ROUND1_CANDIDATES).map (fun ip =>
    round1_best ip (round1_passResults ip (acq1 ip) (probe1 ip)
      Config.ROUND1_PASSES Config.ROUND1_TEST_COUNT))

/-- The round-2 result list (src/yx3.py:586-596): the IPs of the top
`ROUND2_CANDIDATES` round-1 survivors, each measured once. -/
def round2_results_of (sorted_round1 : List SpeedResult)
    (acq2 : String → AcquirePhase)
    (probe2 : String → ℕ → SpeedResult) : List SpeedResult :=
  ((sorted_round1.take Config.ROUND2_CANDIDATES).map (fun r => r.ip)).map
    (fun ip => run_speed_test ip (acq2 ip) (probe2 ip) 1)

/-- The measurement-and-decision part of one loop iteration
(src/yx3.py:552-608), after the selection phase. -/
def round_phase (candidates : List String)
    (acq1 : String → ℕ → AcquirePhase) (probe1 : String → ℕ → ℕ → SpeedResult)
    (acq2 : String → AcquirePhase) (probe2 : String → ℕ → SpeedResult)
    (baseline : SpeedResult) : LoopStep :=
  match candidates with
  | [] => .exitProcess
  | _ :: _ =>
    let sorted_round1 := sort_by_speed_desc (round1_results_of candidates acq1 probe1)
    if !(sorted_round1.any (fun r => decide (0 < r.speed))) then
      .retryAfterShortDelay
    else
      let sorted_final := sort_by_speed_desc (round2_results_of sorted_round1 acq2 probe2)
      if !(sorted_final.any (fun r => decide (0 < r.speed))) then
        .retryAfterShortDelay
      else
        match analyze_and_decide sorted_final baseline with
        | .scriptExit => .exitProcess
        | d => .finishRun d

/-- One iteration of `main`'s loop (src/yx3.py:539-613), parameterised
by oracles for everything the environment decides:
`skipSelection` is `Config.SKIP_SELECTION`; `resultCsvExists` is the
`os.path.exists(RESULT_CSV_PATH)` check of the skip branch;
`scanOk` collapses the result-file existence/nonemptiness checks of
`run_haixuan` / `run_jingxuan`; `haixuanCount` is the IP count checked
against `MIN_HAIXUAN_IPS` (src/yx3.py:239-240); `candidates` is what
`get_candidate_ips` parsed (empty list means its `ValueError` path,
which exits the script); `acq1 ip p` / `probe1 ip p` describe the
round-1 `run_speed_test` call for `ip` in pass `p`, and `acq2` /
`probe2` the single round-2 call; `baseline` is the
`get_baseline_performance` result. -/
def main_loop_body (skipSelection resultCsvExists scanOk : Bool) (haixuanCount : ℕ)
    (candidates : List String)
    (acq1 : String → ℕ → AcquirePhase) (probe1 : String → ℕ → ℕ → SpeedResult)
    (acq2 : String → AcquirePhase) (probe2 : String → ℕ → SpeedResult)
    (baseline : SpeedResult) : LoopStep :=
  if screening_fails skipSelection resultCsvExists scanOk haixuanCount then
    .exitProcess
  else round_phase candidates acq1 probe1 acq2 probe2 baseline

/-- The JSON documents handled by `update_xray_config_file`.  Objects
are insertion-ordered key/value lists, as produced by `json.load`
(which yields alias-free trees with the last duplicate key winning,
so keys are unique — the model does not rely on that). -/
inductive Json where
  | null
  | bool (b : Bool)
  | num (q : ℚ)
  | str (s : String)
  | arr (elems : List Json)
  | obj (fields : List (String × Json))

/-- Python `dict` read `d[k]`: the value stored under `k`, if any. -/
def lookupField : List (String × Json) → String → Option Json
  | [], _ => none
  | (k, v) :: rest, key => if k = key then some v else lookupField rest key

/-- Python `dict` write `d[k] = v`: replace the stored value, keeping
the key's position, or append the new key at the end. -/
def setField : List (String × Json) → String → Json → List (String × Json)
  | [], key, v => [(key, v)]
  | (k, w) :: rest, key, v =>
    if k = key then (k, v) :: rest else (k, w) :: setField rest key v

/-- One step of a JSON access path: a dict key or a list index. -/
inductive PathStep where
  | key (k : String)
  | idx (i : ℕ)
deriving Repr, DecidableEq

/-- Read the value at a path (dict keys on objects, indices on arrays);
`none` when the path does not exist or hits the wrong container kind. -/
def Json.get : Json → List PathStep → Option Json
  | j, [] => some j
  | j, step :: p =>
    match j, step with
    | .obj fs, .key k =>
      match lookupField fs k with
      | some v => Json.get v p
      | none => none
    | .arr xs, .idx i =>
      match xs[i]? with
      | some v => Json.get v p
      | none => none
    | _, _ => none

/-- Replace the value at a path, Python style: every step but the last
must already exist (`d[k]` / `l[i]` raise on a missing key / index /
wrong container), while the final step is an assignment — a final dict
key is created if absent, a final list index must be in range. -/
def setAtPath : Json → List PathStep → Json → Option Json
  | _, [], v => some v
  | .obj fs, [.key k], v => some (.obj (setField fs k v))
  | .obj fs, .key k :: p :: ps, v =>
    match lookupField fs k with
    | some w =>
      match setAtPath w (p :: ps) v with
      | some w' => some (.obj (setField fs k w'))
      | none => none
    | none => none
  | .arr xs, .idx i :: p, v =>
    match xs[i]? with
    | some w =>
      match setAtPath w p v with
      | some w' => some (.arr (xs.set i w'))
      | none => none
    | none => none
  | _, _ :: _, _ => none

/-- The path rewritten on promotion:
`config_data['outbounds'][0]['settings']['vnext'][0]['address']`. -/
def addressPath : List PathStep :=
  [.key "outbounds", .idx 0, .key "settings", .key "vnext", .idx 0, .key "address"]

/-- `p` and `q` disagree at some position that both possess (neither
is a prefix of the other): reads at such `p` are untouched by a write
at `q`. -/
def pathDiverges : List PathStep → List PathStep → Bool
  | a :: p, b :: q => if a = b then pathDiverges p q else true
  | _, _ => false

/-- The document transformation of `update_xray_config_file`
(src/yx3.py:149-176) for the promotion call, where `new_ports` is
`None` and only `vnext[0]['address'] = ip_address` runs.  Each Python
subscript that would raise (`KeyError`, `IndexError`, `TypeError` —
including the explicit `raise` on an empty/falsy `vnext`) is an
exception caught at src/yx3.py:174, i.e. `none` here; indexing a
string also ends in one of those exceptions within one further step. -/
def update_outbound_address (cfg : Json) (ip : String) : Option Json :=
  match cfg with
  | .obj fs =>
    match lookupField fs "outbounds" with
    | some (.arr (ob0 :: obs)) =>
      match ob0 with
      | .obj obf =>
        match lookupField obf "settings" with
        | some (.obj sf) =>
          match lookupField sf "vnext" with
          | some (.arr (v0 :: vs)) =>
            match v0 with
            | .obj vf =>
              some (.obj (setField fs "outbounds" (.arr (
                (.obj (setField obf "settings" (.obj (setField sf "vnext" (.arr (
                  (.obj (setField vf "address" (.str ip))) :: vs)))))) :: obs))))
            | _ => none
          | _ => none
        | _ => none
      | _ => none
    | _ => none
  | _ => none

/-- File-level model of the promotion call
`update_xray_config_file(best_ip, Config.XRAY_CONFIG_PATH)`
(src/yx3.py:525): `fileCfg` is the parsed current content of the
persisted configuration (`none`: unreadable / malformed, the
`FileNotFoundError` / `JSONDecodeError` paths).  All validation of the
document happens before the output file is opened for writing, so on
any `False` return the file content is unchanged, and on `True` the
file holds the complete replacement document. -/
def update_xray_config_file (fileCfg : Option Json) (ip : String) :
    Option Json × Bool :=
  match fileCfg with
  | none => (none, false)
  | some cfg =>
    match update_outbound_address cfg ip with
    | none => (some cfg, false)
    | some cfg' => (some cfg', true)

/-- The two scoped resources of one `run_speed_test` call: the
temporary xray configuration file and the ephemeral xray process. -/
structure ResourceState where
  tempConfigExists : Bool
  xrayRunning : Bool
deriving Repr, DecidableEq

/-- How the `try` body of `run_speed_test` exited (src/yx3.py:312-372).
`configWriteFailed`: early `return` after `update_xray_config_file`
failed (nothing written, no process started);
`xrayStartFailed`: the temp config was written and `Popen` ran, the
port check failed and `terminate()` was sent in-branch — the process
may still be shutting down when `finally` runs, so it is conservatively
treated as still running;
`probesCompleted`: the normal path (temp config written, process live);
`raised cw st`: the `except Exception` path, interrupting the body at
an arbitrary point — `cw` / `st` say whether the temp config had been
written and whether `Popen` had succeeded by then. -/
inductive BodyOutcome where
  | configWriteFailed
  | xrayStartFailed
  | probesCompleted
  | raised (configWritten : Bool) (xrayStarted : Bool)
deriving Repr, DecidableEq

/-- Resource effect of the `try` body on the state at call entry. -/
def run_speed_test_body_effect (o : BodyOutcome) (s0 : ResourceState) : ResourceState :=
  match o with
  | .configWriteFailed => s0
  | .xrayStartFailed => ⟨true, true⟩
  | .probesCompleted => ⟨true, true⟩
  | .raised cw st => ⟨s0.tempConfigExists || cw, st⟩

/-- `terminate(); wait(timeout=3)`, with `kill()` on `TimeoutExpired`
(src/yx3.py:376-380): whether or not the graceful signal is honoured
within the grace period, the process ends up not running. -/
def terminate_then_kill (gracefulTermWorks : Bool) : Bool :=
  if gracefulTermWorks then false else false

/-- The `finally` block of `run_speed_test` (src/yx3.py:373-388): stop
the process if it is still running, then remove the temp config file
if it exists.  `os.remove` and process termination are modelled as
effective (the source additionally swallows an `OSError` from
`os.remove`, an environment fault outside this model). -/
def run_speed_test_finally (gracefulTermWorks : Bool) (s : ResourceState) : ResourceState :=
  let running := if s.xrayRunning then terminate_then_kill gracefulTermWorks else s.xrayRunning
  let cfg := if s.tempConfigExists then false else s.tempConfigExists
  ⟨cfg, running⟩

/-- Resource behaviour of a whole `run_speed_test` call: the `try`
body (however it exits) followed by the `finally` block. -/
def run_speed_test_resources (o : BodyOutcome) (gracefulTermWorks : Bool)
    (s0 : ResourceState) : ResourceState :=
  run_speed_test_finally gracefulTermWorks (run_speed_test_body_effect o s0)

/-- The scan loop of `find_available_ports` (src/yx3.py:126-134, and
identically src/main.py:157-165):
`while len(available_ports) < count and port < start_port + 100`.
`fuel` counts the ports left in the window, so `fuel = 0` is
`port = start_port + 100`; `avail` is the `check_port_available`
oracle. -/
def find_available_ports_loop (avail : ℕ → Bool) (count : ℕ) :
    ℕ → ℕ → List ℕ → List ℕ
  | 0, _, acc => acc
  | fuel + 1, port, acc =>
    if acc.length < count then
      find_available_ports_loop avail count fuel (port + 1)
        (if avail port then acc ++ [port] else acc)
    else acc

/-- `find_available_ports(start_port, count)` (src/yx3.py:126-134). -/
def find_available_ports (avail : ℕ → Bool) (start_port count : ℕ) : List ℕ :=
  find_available_ports_loop avail count 100 start_port []

/-- The port-allocation part of `pre_flight_checks` (src/yx3.py:211-221):
try the window at `DEFAULT_TEMP_SOCKS_PORT`, fall back to the window at
20800, and exit the process (`none`) when even that yields fewer than
two ports; otherwise unpack `temp_socks_port, temp_http_port = ports`
(the list never exceeds two elements). -/
def pre_flight_ports (avail : ℕ → Bool) : Option (ℕ × ℕ) :=
  let ports := find_available_ports avail Config.DEFAULT_TEMP_SOCKS_PORT 2
  let ports := if ports.length < 2 then find_available_ports avail 20800 2 else ports
  if ports.length < 2 then none
  else match ports with
  | a :: b :: _ => some (a, b)
  | _ => none

/-- A small concrete configuration document of the persisted shape,
used to instantiate the frame theorem. -/
def exampleXrayConfig : Json :=
  .obj [("log", .str "warn"),
    ("outbounds", .arr [.obj [("protocol", .str "vless"),
      ("settings", .obj [("vnext",
        .arr [.obj [("address", .str "1.1.1.1"), ("port", .num 443)]])])]]),
    ("inbounds", .arr [])]

/-- `exampleXrayConfig` after promotion of `5.6.7.8`. -/
def exampleXrayConfigUpdated : Json :=
  .obj [("log", .str "warn"),
    ("outbounds", .arr [.obj [("protocol", .str "vless"),
      ("settings", .obj [("vnext",
        .arr [.obj [("address", .str "5.6.7.8"), ("port", .num 443)]])])]]),
    ("inbounds", .arr [])]

/-! ### Helper lemmas -/

theorem ne_of_length_ne {s t : String} (h : s.length ≠ t.length) : s ≠ t :=
  fun e => h (by rw [e])

theorem isSuccess_speed_pos {r : SpeedResult} (h : isSuccess r = true) : 0 < r.speed := by
  simpa [isSuccess] using (of_decide_eq_true h).2

theorem probeContribution_nonneg (r : SpeedResult) : 0 ≤ probeContribution r := by
  unfold probeContribution
  split
  · exact le_of_lt (isSuccess_speed_pos (by assumption))
  · exact le_refl 0

theorem probeContribution_pos_iff (r : SpeedResult) :
    0 < probeContribution r ↔ isSuccess r = true := by
  unfold probeContribution
  split
  · simp_all [isSuccess_speed_pos]
  · simp_all

theorem sum_probeContribution (l : List SpeedResult) :
    (l.map probeContribution).sum
      = ((l.filter isSuccess).map (fun r => r.speed)).sum := by
  induction l with
  | nil => simp
  | cons r t ih =>
    by_cases h : isSuccess r = true
    · simp [probeContribution, h, ih]
    · simp [probeContribution, h, ih, List.filter_cons]

theorem sum_pos_iff_of_nonneg {l : List ℚ} (h : ∀ x ∈ l, 0 ≤ x) :
    0 < l.sum ↔ ∃ x ∈ l, 0 < x := by
  induction l with
  | nil => simp
  | cons a t ih =>
    have ha : 0 ≤ a := h a (List.mem_cons_self a t)
    have ht : ∀ x ∈ t, 0 ≤ x := fun x hx => h x (List.mem_cons_of_mem a hx)
    simp only [List.sum_cons, List.mem_cons, exists_eq_or_imp]
    constructor
    · intro hpos
      by_cases ha' : 0 < a
      · exact Or.inl ha'
      · have ha0 : a = 0 := le_antisymm (not_lt.mp ha') ha
        exact Or.inr ((ih ht).mp (by linarith))
    · rintro (ha' | ⟨x, hx, hx'⟩)
      · have := List.sum_nonneg ht
        linarith
      · have := (ih ht).mpr ⟨x, hx, hx'⟩
        linarith

theorem run_speed_test_core_speed (ip : String) (probe : ℕ → SpeedResult) (N : ℕ) :
    (run_speed_test_core ip probe N).speed
      = (((List.range N).map probe).map probeContribution).sum / (N : ℚ) := by
  simp only [run_speed_test_core]
  split <;> rfl

theorem run_speed_test_core_status (ip : String) (probe : ℕ → SpeedResult) (N : ℕ) :
    (run_speed_test_core ip probe N).status
      = if 0 < (((List.range N).map probe).filter isSuccess).length then "OK"
        else "All Failed ("
          ++ ((((List.range N).map probe).map (fun r => r.status)).getLastD "Unknown") ++ ")" := by
  simp only [run_speed_test_core]
  split <;> rfl

theorem run_speed_test_core_speed_nonneg (ip : String) (probe : ℕ → SpeedResult) (N : ℕ) :
    0 ≤ (run_speed_test_core ip probe N).speed := by
  rw [run_speed_test_core_speed]
  apply div_nonneg
  · exact List.sum_nonneg (by
      intro x hx
      obtain ⟨r, -, rfl⟩ := List.mem_map.mp hx
      exact probeContribution_nonneg r)
  · exact Nat.cast_nonneg N

theorem run_speed_test_speed_nonneg (ip : String) (acq : AcquirePhase)
    (probe : ℕ → SpeedResult) (N : ℕ) :
    0 ≤ (run_speed_test ip acq probe N).speed := by
  cases acq with
  | ok => exact run_speed_test_core_speed_nonneg ip probe N
  | configWriteFailed => exact le_refl 0
  | xrayStartFailed => exact le_refl 0
  | unexpectedError m => exact le_refl 0

theorem run_speed_test_core_speed_pos_iff (ip : String) (probe : ℕ → SpeedResult) (N : ℕ) :
    0 < (run_speed_test_core ip probe N).speed
      ↔ ∃ i < N, isSuccess (probe i) = true := by
  rw [run_speed_test_core_speed]
  have hnn : ∀ x ∈ ((List.range N).map probe).map probeContribution, 0 ≤ x := by
    intro x hx
    obtain ⟨r, -, rfl⟩ := List.mem_map.mp hx
    exact probeContribution_nonneg r
  constructor
  · intro h
    have hsum : 0 < (((List.range N).map probe).map probeContribution).sum := by
      by_contra hc
      push_neg at hc
      have : (((List.range N).map probe).map probeContribution).sum / (N : ℚ) ≤ 0 :=
        div_nonpos_of_nonpos_of_nonneg hc (Nat.cast_nonneg N)
      linarith
    obtain ⟨x, hx, hx0⟩ := (sum_pos_iff_of_nonneg hnn).mp hsum
    obtain ⟨r, hr, rfl⟩ := List.mem_map.mp hx
    obtain ⟨i, hi, rfl⟩ := List.mem_map.mp hr
    exact ⟨i, List.mem_range.mp hi, (probeContribution_pos_iff _).mp hx0⟩
  · rintro ⟨i, hi, hsucc⟩
    have hmem : probeContribution (probe i)
        ∈ ((List.range N).map probe).map probeContribution := by
      exact List.mem_map_of_mem _ (List.mem_map_of_mem _ (List.mem_range.mpr hi))
    have hsum : 0 < (((List.range N).map probe).map probeContribution).sum :=
      (sum_pos_iff_of_nonneg hnn).mpr
        ⟨_, hmem, (probeContribution_pos_iff _).mpr hsucc⟩
    have hN : 0 < N := Nat.pos_of_ne_zero (by rintro rfl; exact absurd hi (Nat.not_lt_zero i))
    exact div_pos hsum (by exact_mod_cast hN)

theorem allFailed_ne_OK (st : String) : ("All Failed (" ++ st ++ ")") ≠ "OK" := by
  apply ne_of_length_ne
  rw [String.length_append, String.length_append]
  have h1 : ("All Failed (" : String).length = 12 := by decide
  have h2 : (")" : String).length = 1 := by decide
  have h3 : ("OK" : String).length = 2 := by decide
  omega

theorem run_speed_test_core_status_OK_iff (ip : String) (probe : ℕ → SpeedResult) (N : ℕ) :
    (run_speed_test_core ip probe N).status = "OK"
      ↔ ∃ i < N, isSuccess (probe i) = true := by
  rw [run_speed_test_core_status]
  split
  · rename_i hlen
    simp only [true_iff]
    obtain ⟨r, hr⟩ := List.exists_mem_of_length_pos hlen
    have hr' := List.mem_filter.mp hr
    obtain ⟨i, hi, rfl⟩ := List.mem_map.mp hr'.1
    exact ⟨i, List.mem_range.mp hi, hr'.2⟩
  · rename_i hlen
    constructor
    · intro h
      exact absurd h (allFailed_ne_OK _)
    · rintro ⟨i, hi, hsucc⟩
      exfalso
      apply hlen
      apply List.length_pos.mpr
      intro hnil
      have : probe i ∈ ((List.range N).map probe).filter isSuccess :=
        List.mem_filter.mpr ⟨List.mem_map_of_mem _ (List.mem_range.mpr hi), hsucc⟩
      rw [hnil] at this
      exact absurd this (List.not_mem_nil _)

/-! ### Claim C1 -/

theorem should_update_iff (best baseline : SpeedResult) :
    should_update best baseline = true ↔
      (baseline.status ≠ "OK"
        ∨ Config.MIN_IMPROVEMENT_THRESHOLD ≤ best.speed - baseline.speed
        ∨ (0 < baseline.speed
            ∧ Config.MIN_IMPROVEMENT_PERCENTAGE
                ≤ (best.speed - baseline.speed) / baseline.speed * 100)) := by
  simp [should_update, or_assoc]

/-- Claim C1: `analyze_and_decide` promotes iff the winner (head of the
speed-sorted final-round list) has positive speed and the baseline is
not OK, or the absolute improvement reaches `MIN_IMPROVEMENT_THRESHOLD`,
or the baseline is positive and the relative improvement reaches
`MIN_IMPROVEMENT_PERCENTAGE`; in particular a zero-speed winner never
promotes.  The nonnegativity hypothesis holds for every measured
result (`run_speed_test_speed_nonneg`). -/
theorem C1_promotion_predicate (best : SpeedResult) (rest : List SpeedResult)
    (baseline : SpeedResult) (hnn : 0 ≤ best.speed) :
    (analyze_and_decide (best :: rest) baseline = .promote
      ↔ 0 < best.speed ∧
        (baseline.status ≠ "OK"
          ∨ Config.MIN_IMPROVEMENT_THRESHOLD ≤ best.speed - baseline.speed
          ∨ (0 < baseline.speed
              ∧ Config.MIN_IMPROVEMENT_PERCENTAGE
                  ≤ (best.speed - baseline.speed) / baseline.speed * 100)))
    ∧ (best.speed = 0 → analyze_and_decide (best :: rest) baseline ≠ .promote) := by
  have hma : analyze_and_decide (best :: rest) baseline =
      if best.speed = 0 then Decision.noValidCandidate
      else if should_update best baseline then Decision.promote else Decision.keep := rfl
  constructor
  · rw [hma]
    by_cases h0 : best.speed = 0
    · rw [if_pos h0]
      simp [h0]
    · rw [if_neg h0]
      have hpos : 0 < best.speed := lt_of_le_of_ne hnn (Ne.symm h0)
      by_cases hs : should_update best baseline
      · rw [if_pos hs]
        exact iff_of_true rfl ⟨hpos, (should_update_iff best baseline).mp hs⟩
      · rw [if_neg hs]
        constructor
        · intro h
          exact absurd h (by simp)
        · rintro ⟨-, hcond⟩
          exact absurd ((should_update_iff best baseline).mpr hcond) hs
  · intro h0
    rw [hma, if_pos h0]
    simp

/-- Witness for C1 at a concrete improving candidate. -/
theorem C1_witness :
    analyze_and_decide [⟨"2.2.2.2", 100, "OK"⟩] ⟨"1.1.1.1", 50, "OK"⟩ = .promote :=
  (C1_promotion_predicate ⟨"2.2.2.2", 100, "OK"⟩ [] ⟨"1.1.1.1", 50, "OK"⟩
      (by norm_num)).1.mpr
    ⟨by norm_num, Or.inr (Or.inl (by norm_num [Config.MIN_IMPROVEMENT_THRESHOLD]))⟩

/-! ### Claim C2 -/

/-- Claim C2: with `test_count = N` probes of which the successful ones
have speeds `v1..vS`, the aggregated speed is `(v1+...+vS) / N` — the
mean over all attempted probes with failures counted as `0`, not the
mean over only the successes. -/
theorem C2_mean_counts_failures (ip : String) (probe : ℕ → SpeedResult) (N : ℕ)
    (hN : 0 < N) :
    (run_speed_test_core ip probe N).speed
      = ((((List.range N).map probe).filter isSuccess).map (fun r => r.speed)).sum
          / (N : ℚ) := by
  rw [run_speed_test_core_speed, sum_probeContribution]

/-- Witness for C2: five probes, the first succeeding at 5 Mbit/s, give
the mean 5/5 = 1 Mbit/s, not 5. -/
theorem C2_witness :
    (0 : ℕ) < 5 ∧
    (run_speed_test_core "1.1.1.1"
        (fun i => if i = 0 then ⟨"1.1.1.1", 5, "OK"⟩ else ⟨"1.1.1.1", 0, "Curl Timeout"⟩)
        5).speed
      = ((((List.range 5).map
            (fun i => if i = 0 then (⟨"1.1.1.1", 5, "OK"⟩ : SpeedResult)
              else ⟨"1.1.1.1", 0, "Curl Timeout"⟩)).filter isSuccess).map
          (fun r => r.speed)).sum / (5 : ℚ) :=
  ⟨by decide,
   C2_mean_counts_failures "1.1.1.1"
     (fun i => if i = 0 then ⟨"1.1.1.1", 5, "OK"⟩ else ⟨"1.1.1.1", 0, "Curl Timeout"⟩)
     5 (by decide)⟩

/-! ### Claim C3 -/

theorem round1_fold_speed (b r : SpeedResult) :
    (round1_fold b r).speed = max b.speed r.speed := by
  unfold round1_fold
  split
  · exact (max_eq_right (le_of_lt (by assumption))).symm
  · exact (max_eq_left (le_of_not_lt (by assumption))).symm

theorem foldl_round1_fold_speed (l : List SpeedResult) :
    ∀ b : SpeedResult,
      (l.foldl round1_fold b).speed = (l.map (fun r => r.speed)).foldl max b.speed := by
  induction l with
  | nil => intro b; rfl
  | cons r t ih =>
    intro b
    rw [List.foldl_cons, List.map_cons, List.foldl_cons, ih, round1_fold_speed]

theorem le_foldl_max (l : List ℚ) : ∀ b : ℚ, b ≤ l.foldl max b := by
  induction l with
  | nil => intro b; exact le_refl b
  | cons a t ih =>
    intro b
    exact le_trans (le_max_left b a) (ih (max b a))

theorem mem_le_foldl_max (l : List ℚ) :
    ∀ b : ℚ, ∀ x ∈ l, x ≤ l.foldl max b := by
  induction l with
  | nil => intro b x hx; cases hx
  | cons a t ih =>
    intro b x hx
    rcases List.mem_cons.mp hx with rfl | hx'
    · exact le_trans (le_max_right b x) (le_foldl_max t (max b x))
    · exact ih (max b a) x hx'

theorem round1_best_speed_ub (ip : String) (acq : ℕ → AcquirePhase)
    (probe : ℕ → ℕ → SpeedResult) (passes test_count : ℕ) :
    ∀ r ∈ round1_passResults ip acq probe passes test_count,
      r.speed ≤ (round1_best ip (round1_passResults ip acq probe passes test_count)).speed := by
  intro r hr
  unfold round1_best
  rw [foldl_round1_fold_speed]
  exact mem_le_foldl_max _ _ _ (List.mem_map_of_mem (fun r => r.speed) hr)

/-- Claim C3: across multiple passes the recorded speed of a candidate
is the maximum per-pass aggregated speed (`0` when every pass scored
`0`, via the seed entry), never an average across passes; it is an
upper bound of all per-pass speeds. -/
theorem C3_max_over_passes (ip : String) (acq : ℕ → AcquirePhase)
    (probe : ℕ → ℕ → SpeedResult) (passes test_count : ℕ) :
    (round1_best ip (round1_passResults ip acq probe passes test_count)).speed
      = ((round1_passResults ip acq probe passes test_count).map
          (fun r => r.speed)).foldl max 0
    ∧ ∀ r ∈ round1_passResults ip acq probe passes test_count,
        r.speed ≤ (round1_best ip (round1_passResults ip acq probe passes test_count)).speed := by
  constructor
  · exact foldl_round1_fold_speed _ _
  · exact round1_best_speed_ub ip acq probe passes test_count

/-! ### Claim C9 -/

/-- Claim C9: whatever way the body of `run_speed_test` exits
(config-write failure, xray start failure, completed probes, or an
exception at any intermediate point), and whether or not the graceful
`terminate` is honoured within the 3-second grace period, after the
`finally` block the temporary proxy config file does not exist and the
ephemeral proxy process is not running. -/
theorem C9_cleanup_invariant (o : BodyOutcome) (gracefulTermWorks : Bool)
    (tempCfg0 : Bool) :
    run_speed_test_resources o gracefulTermWorks ⟨tempCfg0, false⟩
      = ⟨false, false⟩ := by
  rcases o with _ | _ | _ | ⟨cw, st⟩ <;> cases gracefulTermWorks <;> cases tempCfg0 <;>
    first
    | rfl
    | (cases cw <;> cases st <;> rfl)

/-! ### Claim C4 -/

theorem unexpectedError_ne_OK (m : String) : ("Unexpected Error: " ++ m) ≠ "OK" := by
  apply ne_of_length_ne
  rw [String.length_append]
  have h1 : ("Unexpected Error: " : String).length = 18 := by decide
  have h2 : ("OK" : String).length = 2 := by decide
  omega

theorem run_speed_test_status_OK_iff (ip : String) (acq : AcquirePhase)
    (probe : ℕ → SpeedResult) (N : ℕ) :
    (run_speed_test ip acq probe N).status = "OK"
      ↔ acq = .ok ∧ ∃ i < N, isSuccess (probe i) = true := by
  cases acq with
  | ok =>
    simp only [run_speed_test, true_and]
    exact run_speed_test_core_status_OK_iff ip probe N
  | configWriteFailed => simp [run_speed_test]
  | xrayStartFailed => simp [run_speed_test]
  | unexpectedError m =>
    simp only [run_speed_test]
    constructor
    · intro h
      exact absurd h (unexpectedError_ne_OK m)
    · rintro ⟨h, -⟩
      cases h

theorem run_speed_test_speed_pos_iff (ip : String) (acq : AcquirePhase)
    (probe : ℕ → SpeedResult) (N : ℕ) :
    0 < (run_speed_test ip acq probe N).speed
      ↔ acq = .ok ∧ ∃ i < N, isSuccess (probe i) = true := by
  cases acq with
  | ok =>
    simp only [run_speed_test, true_and]
    exact run_speed_test_core_speed_pos_iff ip probe N
  | configWriteFailed => simp [run_speed_test]
  | xrayStartFailed => simp [run_speed_test]
  | unexpectedError m => simp [run_speed_test]

theorem foldl_round1_fold_mem (l : List SpeedResult) :
    ∀ b : SpeedResult, l.foldl round1_fold b = b ∨ l.foldl round1_fold b ∈ l := by
  induction l with
  | nil => intro b; exact Or.inl rfl
  | cons r t ih =>
    intro b
    rw [List.foldl_cons]
    rcases ih (round1_fold b r) with h | h
    · rw [h]
      unfold round1_fold
      split
      · exact Or.inr (List.mem_cons_self r t)
      · exact Or.inl rfl
    · exact Or.inr (List.mem_cons_of_mem r h)

theorem foldl_round1_fold_fixed (l : List SpeedResult) :
    ∀ b : SpeedResult, (∀ r ∈ l, ¬ b.speed < r.speed) → l.foldl round1_fold b = b := by
  induction l with
  | nil => intro b _; rfl
  | cons r t ih =>
    intro b h
    rw [List.foldl_cons]
    have hb : round1_fold b r = b := by
      unfold round1_fold
      rw [if_neg (h r (List.mem_cons_self r t))]
    rw [hb]
    exact ih b (fun r' hr' => h r' (List.mem_cons_of_mem r hr'))

theorem getLastD_status_range (probe : ℕ → SpeedResult) (N : ℕ) (hN : 0 < N) :
    (((List.range N).map probe).map (fun r => r.status)).getLastD "Unknown"
      = (probe (N - 1)).status := by
  obtain ⟨M, rfl⟩ := Nat.exists_eq_add_of_lt hN
  rw [Nat.zero_add, List.range_succ, List.map_append, List.map_append]
  simp [List.getLastD_concat]

/-- Claim C4 (amended): a candidate's final recorded status is `OK` iff
at least one probe of its aggregation window succeeded.  When no probe
succeeded, a single `run_speed_test` call records
`All Failed (<last probe status>)`, but the multi-pass recorded entry
is the untouched seed `{'ip': ip, 'speed': 0.0, 'status': 'Not Tested'}`
(zero-speed pass results never replace the seed), which does not carry
the last observed probe status. -/
theorem C4_final_status_amended (ip : String) (probe : ℕ → SpeedResult) (N : ℕ)
    (acq : ℕ → AcquirePhase) (probes : ℕ → ℕ → SpeedResult) (P : ℕ) (hN : 0 < N) :
    ((run_speed_test_core ip probe N).status = "OK" ↔ ∃ i < N, isSuccess (probe i) = true)
    ∧ ((¬ ∃ i < N, isSuccess (probe i) = true) →
        (run_speed_test_core ip probe N).status
          = "All Failed (" ++ (probe (N - 1)).status ++ ")")
    ∧ ((round1_best ip (round1_passResults ip acq probes P N)).status = "OK"
        ↔ ∃ p < P, acq p = .ok ∧ ∃ i < N, isSuccess (probes p i) = true)
    ∧ ((¬ ∃ p < P, acq p = .ok ∧ ∃ i < N, isSuccess (probes p i) = true) →
        round1_best ip (round1_passResults ip acq probes P N) = round1_initial ip) := by
  refine ⟨run_speed_test_core_status_OK_iff ip probe N, ?_, ?_, ?_⟩
  · intro hno
    rw [run_speed_test_core_status, if_neg, getLastD_status_range probe N hN]
    intro hlen
    obtain ⟨r, hr⟩ := List.exists_mem_of_length_pos hlen
    have hr' := List.mem_filter.mp hr
    obtain ⟨i, hi, rfl⟩ := List.mem_map.mp hr'.1
    exact hno ⟨i, List.mem_range.mp hi, hr'.2⟩
  · constructor
    · intro hOK
      rcases foldl_round1_fold_mem (round1_passResults ip acq probes P N)
          (round1_initial ip) with hfix | hmem
      · exfalso
        rw [round1_best] at hOK
        rw [hfix] at hOK
        exact absurd hOK (by simp [round1_initial])
      · rw [round1_best] at hOK
        obtain ⟨p, hp, heq⟩ := List.mem_map.mp hmem
        rw [← heq] at hOK
        obtain ⟨hacq, hi⟩ := (run_speed_test_status_OK_iff ip (acq p) (probes p) N).mp hOK
        exact ⟨p, List.mem_range.mp hp, hacq, hi⟩
    · rintro ⟨p, hp, hacq, hi⟩
      have hpassPos : 0 < (run_speed_test ip (acq p) (probes p) N).speed :=
        (run_speed_test_speed_pos_iff ip (acq p) (probes p) N).mpr ⟨hacq, hi⟩
      have hmemPass : run_speed_test ip (acq p) (probes p) N
          ∈ round1_passResults ip acq probes P N :=
        List.mem_map_of_mem _ (List.mem_range.mpr hp)
      have hrec : 0 < (round1_best ip (round1_passResults ip acq probes P N)).speed := by
        have hub := round1_best_speed_ub ip acq probes P N _ hmemPass
        linarith
      rcases foldl_round1_fold_mem (round1_passResults ip acq probes P N)
          (round1_initial ip) with hfix | hmem
      · exfalso
        rw [round1_best, hfix] at hrec
        simp [round1_initial] at hrec
      · rw [round1_best] at hrec ⊢
        obtain ⟨q, hq, heq⟩ := List.mem_map.mp hmem
        rw [← heq] at hrec ⊢
        exact (run_speed_test_status_OK_iff ip (acq q) (probes q) N).mpr
          ((run_speed_test_speed_pos_iff ip (acq q) (probes q) N).mp hrec)
  · intro hno
    apply foldl_round1_fold_fixed
    intro r hr
    obtain ⟨p, hp, rfl⟩ := List.mem_map.mp hr
    intro hlt
    have : 0 < (run_speed_test ip (acq p) (probes p) N).speed := by
      simpa [round1_initial] using hlt
    obtain ⟨hacq, hi⟩ := (run_speed_test_speed_pos_iff ip (acq p) (probes p) N).mp this
    exact hno ⟨p, List.mem_range.mp hp, hacq, hi⟩

/-- Counterexample to C4 as stated: over the configured two passes of
five probes each, with every probe failing as `Curl Timeout`, the
recorded status is the seed `"Not Tested"` — not a failure status
carrying the last observed probe status. -/
theorem C4_counterexample :
    (round1_best "1.2.3.4"
        (round1_passResults "1.2.3.4" (fun _ => .ok)
          (fun _ _ => ⟨"1.2.3.4", 0, "Curl Timeout"⟩)
          Config.ROUND1_PASSES Config.ROUND1_TEST_COUNT)).status = "Not Tested"
    ∧ (round1_best "1.2.3.4"
        (round1_passResults "1.2.3.4" (fun _ => .ok)
          (fun _ _ => ⟨"1.2.3.4", 0, "Curl Timeout"⟩)
          Config.ROUND1_PASSES Config.ROUND1_TEST_COUNT)).status
        ≠ "All Failed (Curl Timeout)"
    ∧ isSuccess ⟨"1.2.3.4", 0, "Curl Timeout"⟩ = false := by
  have hfail : isSuccess ⟨"1.2.3.4", 0, "Curl Timeout"⟩ = false := by decide
  have hfix : round1_best "1.2.3.4"
      (round1_passResults "1.2.3.4" (fun _ => .ok)
        (fun _ _ => ⟨"1.2.3.4", 0, "Curl Timeout"⟩)
        Config.ROUND1_PASSES Config.ROUND1_TEST_COUNT) = round1_initial "1.2.3.4" := by
    unfold round1_best
    apply foldl_round1_fold_fixed
    intro r hr
    obtain ⟨p, hp, rfl⟩ := List.mem_map.mp hr
    intro hlt
    have hpos : 0 < (run_speed_test "1.2.3.4" AcquirePhase.ok
        (fun _ => ⟨"1.2.3.4", 0, "Curl Timeout"⟩) Config.ROUND1_TEST_COUNT).speed := by
      simpa [round1_initial] using hlt
    obtain ⟨-, i, -, hsucc⟩ := (run_speed_test_speed_pos_iff _ _ _ _).mp hpos
    rw [hfail] at hsucc
    cases hsucc
  refine ⟨by rw [hfix]; rfl, ?_, hfail⟩
  rw [hfix]
  show ("Not Tested" : String) ≠ "All Failed (Curl Timeout)"
  decide

/-- Witness for C4: one successful probe in pass 0 out of two passes of
five probes makes the recorded status `OK`. -/
theorem C4_witness :
    (round1_best "9.9.9.9"
        (round1_passResults "9.9.9.9" (fun _ => .ok)
          (fun p i => if p = 0 ∧ i = 0 then ⟨"9.9.9.9", 20, "OK"⟩
            else ⟨"9.9.9.9", 0, "Curl Timeout"⟩)
          Config.ROUND1_PASSES Config.ROUND1_TEST_COUNT)).status = "OK" :=
  (C4_final_status_amended "9.9.9.9"
      (fun _ => ⟨"9.9.9.9", 0, "Curl Timeout"⟩) Config.ROUND1_TEST_COUNT
      (fun _ => .ok)
      (fun p i => if p = 0 ∧ i = 0 then ⟨"9.9.9.9", 20, "OK"⟩
        else ⟨"9.9.9.9", 0, "Curl Timeout"⟩)
      Config.ROUND1_PASSES (by decide)).2.2.1.mpr
    ⟨0, by decide, rfl, 0, by decide, by decide⟩

/-! ### Claim C5 -/

theorem exception_ne_OK (m : String) : ("Exception: " ++ m) ≠ "OK" := by
  apply ne_of_length_ne
  rw [String.length_append]
  have h1 : ("Exception: " : String).length = 11 := by decide
  have h2 : ("OK" : String).length = 2 := by decide
  omega

theorem curlFailed_ne_OK (m : String) : ("Curl Failed (Code:" ++ m ++ ")") ≠ "OK" := by
  apply ne_of_length_ne
  rw [String.length_append, String.length_append]
  have h1 : ("Curl Failed (Code:" : String).length = 18 := by decide
  have h2 : (")" : String).length = 1 := by decide
  have h3 : ("OK" : String).length = 2 := by decide
  omega

theorem curlParsedSpeed_pos_iff {t s : ℚ} (hs : 0 ≤ s) :
    0 < curlParsedSpeed (some (t, s)) ↔ (0 < t ∧ 0 < s) := by
  simp only [curlParsedSpeed]
  by_cases ht : 0 < t
  · rw [if_pos ht]
    have hrw : s / t * 8 / (1000 * 1000) = s * (8 / (t * (1000 * 1000))) := by
      ring
    have hc : 0 < 8 / (t * (1000 * 1000)) := by positivity
    rw [hrw]
    constructor
    · intro hpos
      refine ⟨ht, ?_⟩
      by_contra hns
      push_neg at hns
      have := mul_nonpos_of_nonpos_of_nonneg hns (le_of_lt hc)
      linarith
    · rintro ⟨-, hs0⟩
      exact mul_pos hs0 hc
  · rw [if_neg ht]
    simp only [lt_self_iff_false, false_iff, not_and]
    intro ht'
    exact absurd ht' ht

/-- Claim C5: for every single probe, the status is `OK` iff curl
exited with code 0 and the metrics parsed to a positive elapsed time
and positive byte count (equivalently, positive computed throughput);
every non-OK status reports throughput `0`; and in the successful case
the throughput is `bytes × 8 / elapsed` scaled by the decimal divisor
`1000 × 1000`.  `curlSizeNonneg` states that a parsed byte count is
nonnegative. -/
theorem C5_single_probe (ip : String) (run : CurlRun) (hsz : curlSizeNonneg run) :
    ((perform_single_curl_speedtest ip run).status = "OK"
        ↔ ∃ t s : ℚ, run = .completed 0 (some (some (t, s))) ∧ 0 < t ∧ 0 < s)
    ∧ ((perform_single_curl_speedtest ip run).status ≠ "OK"
        → (perform_single_curl_speedtest ip run).speed = 0)
    ∧ (∀ t s : ℚ, run = .completed 0 (some (some (t, s))) → 0 < t →
        (perform_single_curl_speedtest ip run).speed
          = s * 8 / (t * (1000 * 1000))) := by
  rcases run with ⟨rc, m⟩ | _ | n
  · rcases m with _ | p
    · -- markers absent from stdout
      refine ⟨?_, ?_, ?_⟩
      · simp only [perform_single_curl_speedtest]
        split
        · exact iff_of_false (by simp) (by rintro ⟨t, s, h, -⟩; cases h)
        · exact iff_of_false (curlFailed_ne_OK _) (by rintro ⟨t, s, h, -⟩; cases h)
      · intro h
        simp only [perform_single_curl_speedtest]
        split <;> rfl
      · rintro t s h
        cases h
    · by_cases h0 : rc = 0
      · subst h0
        rcases p with _ | ⟨t, s⟩
        · -- parse raised ValueError: speed 0, status "Result is 0"
          have hres : perform_single_curl_speedtest ip (.completed 0 (some none))
              = ⟨ip, 0, "Result is 0"⟩ := by
            simp [perform_single_curl_speedtest, curlParsedSpeed]
          refine ⟨?_, ?_, ?_⟩
          · rw [hres]
            exact iff_of_false (by simp)
              (by
                rintro ⟨t, s, h, -⟩
                injection h with h1 h2
                cases h2)
          · intro h
            rw [hres]
          · rintro t s h
            injection h with h1 h2
            cases h2
        · -- metrics parsed to (t, s)
          have hsz' : 0 ≤ s := hsz
          by_cases ht : 0 < t
          · by_cases hs0 : 0 < s
            · have hspeed : 0 < curlParsedSpeed (some (t, s)) :=
                (curlParsedSpeed_pos_iff hsz').mpr ⟨ht, hs0⟩
              have hres : perform_single_curl_speedtest ip
                    (.completed 0 (some (some (t, s))))
                  = ⟨ip, curlParsedSpeed (some (t, s)), "OK"⟩ := by
                simp [perform_single_curl_speedtest, if_pos hspeed]
              refine ⟨?_, ?_, ?_⟩
              · rw [hres]
                exact iff_of_true rfl ⟨t, s, rfl, ht, hs0⟩
              · intro h
                exact absurd (by rw [hres]) h
              · rintro t' s' heq ht'
                injection heq with h1 h2
                injection h2 with h2
                injection h2 with h2
                injection h2 with ha hb
                subst ha
                subst hb
                rw [hres]
                show curlParsedSpeed (some (t, s)) = s * 8 / (t * (1000 * 1000))
                simp only [curlParsedSpeed]
                rw [if_pos ht]
                ring
            · have hs00 : s = 0 := le_antisymm (not_lt.mp hs0) hsz'
              subst hs00
              have hspeed : curlParsedSpeed (some (t, (0 : ℚ))) = 0 := by
                simp only [curlParsedSpeed]
                rw [if_pos ht]
                simp
              have hres : perform_single_curl_speedtest ip
                    (.completed 0 (some (some (t, 0))))
                  = ⟨ip, 0, "Result is 0"⟩ := by
                simp [perform_single_curl_speedtest, hspeed]
              refine ⟨?_, ?_, ?_⟩
              · rw [hres]
                exact iff_of_false (by simp)
                  (by
                    rintro ⟨t', s', heq, ht', hs'⟩
                    injection heq with h1 h2
                    injection h2 with h2
                    injection h2 with h2
                    injection h2 with ha hb
                    rw [← hb] at hs'
                    exact absurd hs' (lt_irrefl 0))
              · intro h
                rw [hres]
              · rintro t' s' heq ht'
                injection heq with h1 h2
                injection h2 with h2
                injection h2 with h2
                injection h2 with ha hb
                rw [hres, ← ha, ← hb]
                simp
          · have hspeed : curlParsedSpeed (some (t, s)) = 0 := by
              simp only [curlParsedSpeed]
              rw [if_neg ht]
            have hres : perform_single_curl_speedtest ip
                  (.completed 0 (some (some (t, s))))
                = ⟨ip, 0, "Result is 0"⟩ := by
              simp [perform_single_curl_speedtest, hspeed]
            refine ⟨?_, ?_, ?_⟩
            · rw [hres]
              exact iff_of_false (by simp)
                (by
                  rintro ⟨t', s', heq, ht', hs'⟩
                  injection heq with h1 h2
                  injection h2 with h2
                  injection h2 with h2
                  injection h2 with ha hb
                  rw [← ha] at ht'
                  exact ht ht')
            · intro h
              rw [hres]
            · rintro t' s' heq ht'
              injection heq with h1 h2
              injection h2 with h2
              injection h2 with h2
              injection h2 with ha hb
              rw [← ha] at ht'
              exact absurd ht' ht
      · -- curl exited nonzero with markers present
        have hres : perform_single_curl_speedtest ip (.completed rc (some p))
            = if rc = 28 then ⟨ip, 0, "Curl Timeout"⟩
              else ⟨ip, 0, "Curl Failed (Code:" ++ toString rc ++ ")"⟩ := by
          simp [perform_single_curl_speedtest, h0]
        refine ⟨?_, ?_, ?_⟩
        · rw [hres]
          split
          · exact iff_of_false (by simp)
              (by rintro ⟨t, s, heq, -⟩; injection heq with h1 h2; exact h0 h1)
          · exact iff_of_false (curlFailed_ne_OK _)
              (by rintro ⟨t, s, heq, -⟩; injection heq with h1 h2; exact h0 h1)
        · intro h
          rw [hres]
          split <;> rfl
        · rintro t s heq
          injection heq with h1 h2
          exact absurd h1 h0
  · -- subprocess TimeoutExpired
    refine ⟨?_, fun _ => rfl, ?_⟩
    · exact iff_of_false (by simp [perform_single_curl_speedtest])
        (by rintro ⟨t, s, h, -⟩; cases h)
    · rintro t s h
      cases h
  · -- other exception
    refine ⟨?_, fun _ => rfl, ?_⟩
    · exact iff_of_false (exception_ne_OK n) (by rintro ⟨t, s, h, -⟩; cases h)
    · rintro t s h
      cases h

/-- Witness for C5: a transfer of 1,000,000 bytes in 2 seconds with
exit code 0 is `OK`. -/
theorem C5_witness :
    (perform_single_curl_speedtest "1.2.3.4"
        (.completed 0 (some (some (2, 1000000))))).status = "OK" :=
  (C5_single_probe "1.2.3.4" (.completed 0 (some (some (2, 1000000))))
      (by norm_num [curlSizeNonneg])).1.mpr
    ⟨2, 1000000, rfl, by norm_num, by norm_num⟩

/-! ### Claim C6 -/

/-- Claim C6: the ranking used before selection and before the
decision is a permutation of the measured list, sorted descending by
speed, and stable: for every speed value the candidates having exactly
that speed appear in the same order as in the input list. -/
theorem C6_stable_descending_ranking (l : List SpeedResult) :
    (sort_by_speed_desc l).Perm l
    ∧ (sort_by_speed_desc l).Pairwise (fun a b => b.speed ≤ a.speed)
    ∧ ∀ v : ℚ, (sort_by_speed_desc l).filter (fun r => decide (r.speed = v))
        = l.filter (fun r => decide (r.speed = v)) := by
  have htrans : ∀ a b c : SpeedResult,
      decide (b.speed ≤ a.speed) = true → decide (c.speed ≤ b.speed) = true →
      decide (c.speed ≤ a.speed) = true := by
    intro a b c hab hbc
    exact decide_eq_true (le_trans (of_decide_eq_true hbc) (of_decide_eq_true hab))
  have htotal : ∀ a b : SpeedResult,
      (decide (b.speed ≤ a.speed) || decide (a.speed ≤ b.speed)) = true := by
    intro a b
    rcases le_total b.speed a.speed with h | h
    · simp [h]
    · simp [h]
  refine ⟨List.mergeSort_perm l _, ?_, ?_⟩
  · have h := List.sorted_mergeSort htrans htotal l
    exact h.imp (fun hab => of_decide_eq_true hab)
  · intro v
    have hpw : (l.filter (fun r => decide (r.speed = v))).Pairwise
        (fun a b => decide (b.speed ≤ a.speed) = true) := by
      apply List.pairwise_of_forall_mem_list
      intro a ha b hb
      have ha' := of_decide_eq_true (List.mem_filter.mp ha).2
      have hb' := of_decide_eq_true (List.mem_filter.mp hb).2
      exact decide_eq_true (le_of_eq (hb'.trans ha'.symm))
    have hsub : List.Sublist (l.filter (fun r => decide (r.speed = v))) l :=
      List.filter_sublist l
    have h1 : List.Sublist (l.filter (fun r => decide (r.speed = v)))
        (l.mergeSort (fun a b => decide (b.speed ≤ a.speed))) :=
      List.sublist_mergeSort htrans htotal hpw hsub
    have h2 : (l.filter (fun r => decide (r.speed = v))).filter
        (fun r => decide (r.speed = v)) = l.filter (fun r => decide (r.speed = v)) :=
      List.filter_eq_self.mpr (fun a ha => (List.mem_filter.mp ha).2)
    have h3 : List.Sublist (l.filter (fun r => decide (r.speed = v)))
        ((l.mergeSort (fun a b => decide (b.speed ≤ a.speed))).filter
            (fun r => decide (r.speed = v))) := by
      have := h1.filter (fun r => decide (r.speed = v))
      rw [h2] at this
      exact this
    have h4 : ((l.mergeSort (fun a b => decide (b.speed ≤ a.speed))).filter
        (fun r => decide (r.speed = v))).length
        = (l.filter (fun r => decide (r.speed = v))).length :=
      ((List.mergeSort_perm l _).filter _).length_eq
    exact (h3.eq_of_length h4.symm).symm

/-! ### Claim C10 -/

theorem find_ports_loop_spec (avail : ℕ → Bool) (count : ℕ) :
    ∀ (fuel port : ℕ) (acc : List ℕ),
      acc.length ≤ count →
      (∀ x ∈ acc, x < port) →
      acc.Chain' (fun a b => a < b) →
      (∀ x ∈ acc, avail x = true) →
      (find_available_ports_loop avail count fuel port acc).length ≤ count
      ∧ (find_available_ports_loop avail count fuel port acc).Chain' (fun a b => a < b)
      ∧ ∀ x ∈ find_available_ports_loop avail count fuel port acc,
          (x ∈ acc ∨ (port ≤ x ∧ x < port + fuel)) ∧ avail x = true := by
  intro fuel
  induction fuel with
  | zero =>
    intro port acc h1 h2 h3 h4
    exact ⟨h1, h3, fun x hx => ⟨Or.inl hx, h4 x hx⟩⟩
  | succ n ih =>
    intro port acc h1 h2 h3 h4
    simp only [find_available_ports_loop]
    by_cases hlen : acc.length < count
    · rw [if_pos hlen]
      by_cases hav : avail port = true
      · rw [if_pos hav]
        have hlen' : (acc ++ [port]).length ≤ count := by
          rw [List.length_append]
          simpa using hlen
        have hbound' : ∀ x ∈ acc ++ [port], x < port + 1 := by
          intro x hx
          rcases List.mem_append.mp hx with hx | hx
          · exact Nat.lt_succ_of_lt (h2 x hx)
          · rw [List.mem_singleton.mp hx]
            exact Nat.lt_succ_self port
        have hchain' : (acc ++ [port]).Chain' (fun a b => a < b) := by
          apply List.Chain'.append h3 (List.chain'_singleton port)
          intro x hxl y hyl
          have hx : x ∈ acc := List.mem_of_getLast?_eq_some hxl
          have hy : port = y := by simpa using hyl
          rw [← hy]
          exact h2 x hx
        have havail' : ∀ x ∈ acc ++ [port], avail x = true := by
          intro x hx
          rcases List.mem_append.mp hx with hx | hx
          · exact h4 x hx
          · rw [List.mem_singleton.mp hx]
            exact hav
        have hres := ih (port + 1) (acc ++ [port]) hlen' hbound' hchain' havail'
        refine ⟨hres.1, hres.2.1, fun x hx => ?_⟩
        obtain ⟨hmem, hava⟩ := hres.2.2 x hx
        refine ⟨?_, hava⟩
        rcases hmem with hmem | ⟨hge, hlt⟩
        · rcases List.mem_append.mp hmem with h | h
          · exact Or.inl h
          · rw [List.mem_singleton.mp h]
            exact Or.inr ⟨Nat.le_refl port, by omega⟩
        · exact Or.inr ⟨by omega, by omega⟩
      · rw [if_neg hav]
        have hres := ih (port + 1) acc h1
          (fun x hx => Nat.lt_succ_of_lt (h2 x hx)) h3 h4
        refine ⟨hres.1, hres.2.1, fun x hx => ?_⟩
        obtain ⟨hmem, hava⟩ := hres.2.2 x hx
        refine ⟨?_, hava⟩
        rcases hmem with h | ⟨hge, hlt⟩
        · exact Or.inl h
        · exact Or.inr ⟨by omega, by omega⟩
    · rw [if_neg hlen]
      exact ⟨h1, h3, fun x hx => ⟨Or.inl hx, h4 x hx⟩⟩

/-- Claim C10: `find_available_ports` returns a strictly increasing
list of at most `count` available ports from the window
`[start_port, start_port + 100)`, and whenever the pre-flight port
setup succeeds the two ports it hands out satisfy SOCKS < HTTP (in
particular they are distinct); when two ports cannot be found the
process exits (`none`). -/
theorem C10_port_allocation :
    (∀ (avail : ℕ → Bool) (start_port count : ℕ),
        (find_available_ports avail start_port count).length ≤ count
        ∧ (find_available_ports avail start_port count).Chain' (fun a b => a < b)
        ∧ ∀ x ∈ find_available_ports avail start_port count,
            (start_port ≤ x ∧ x < start_port + 100) ∧ avail x = true)
    ∧ (∀ (avail : ℕ → Bool) (s h : ℕ),
        pre_flight_ports avail = some (s, h) → s < h) := by
  have hgen : ∀ (avail : ℕ → Bool) (start_port count : ℕ),
      (find_available_ports avail start_port count).length ≤ count
      ∧ (find_available_ports avail start_port count).Chain' (fun a b => a < b)
      ∧ ∀ x ∈ find_available_ports avail start_port count,
          (start_port ≤ x ∧ x < start_port + 100) ∧ avail x = true := by
    intro avail start count
    have hspec := find_ports_loop_spec avail count 100 start []
      (by simp) (by simp) (by simp) (by simp)
    refine ⟨hspec.1, hspec.2.1, fun x hx => ?_⟩
    obtain ⟨hmem, hav⟩ := hspec.2.2 x hx
    rcases hmem with h | h
    · exact absurd h (List.not_mem_nil x)
    · exact ⟨h, hav⟩
  refine ⟨hgen, ?_⟩
  intro avail s h hpre
  simp only [pre_flight_ports] at hpre
  generalize hch : (if (find_available_ports avail Config.DEFAULT_TEMP_SOCKS_PORT 2).length < 2
      then find_available_ports avail 20800 2
      else find_available_ports avail Config.DEFAULT_TEMP_SOCKS_PORT 2) = chosen at hpre
  have hchosen : chosen.Chain' (fun a b => a < b) := by
    rw [← hch]
    split
    · exact (hgen avail 20800 2).2.1
    · exact (hgen avail Config.DEFAULT_TEMP_SOCKS_PORT 2).2.1
  split at hpre
  · cases hpre
  · rcases chosen with _ | ⟨a, _ | ⟨b, t⟩⟩
    · cases hpre
    · cases hpre
    · injection hpre with hpair
      cases hpair
      exact (List.chain'_cons.mp hchosen).1

/-- Witness for C10: with every port available, pre-flight hands out
`(20808, 20809)` and the theorem yields `20808 < 20809`. -/
theorem C10_witness : 20808 < 20809 ∧ pre_flight_ports (fun _ => true) = some (20808, 20809) :=
  ⟨C10_port_allocation.2 (fun _ => true) 20808 20809 rfl, rfl⟩

/-! ### Claim C7 -/

theorem pathDiverges_nil_right (p : List PathStep) : pathDiverges p [] = false := by
  cases p <;> rfl

theorem pathDiverges_nil_left (q : List PathStep) : pathDiverges [] q = false := by
  cases q <;> rfl

theorem lookupField_setField_self (fs : List (String × Json)) (k : String) (v : Json) :
    lookupField (setField fs k v) k = some v := by
  induction fs with
  | nil => simp [setField, lookupField]
  | cons kv rest ih =>
    obtain ⟨k0, w⟩ := kv
    by_cases h : k0 = k
    · simp [setField, lookupField, h]
    · simp [setField, lookupField, h, ih]

theorem lookupField_setField_ne (fs : List (String × Json)) (k : String) (v : Json)
    (k' : String) (h : k' ≠ k) :
    lookupField (setField fs k v) k' = lookupField fs k' := by
  have h' : ¬ (k = k') := fun e => h e.symm
  induction fs with
  | nil => simp [setField, lookupField, h']
  | cons kv rest ih =>
    obtain ⟨k0, w⟩ := kv
    by_cases h0 : k0 = k
    · subst h0
      simp [setField, lookupField, h']
    · by_cases h1 : k0 = k'
      · simp [setField, lookupField, h0, h1, h]
      · simp [setField, lookupField, h0, h1, ih]

theorem setAtPath_spec : ∀ (path : List PathStep) (j v j' : Json),
    setAtPath j path v = some j' →
    Json.get j' path = some v
    ∧ ∀ p, pathDiverges p path = true → Json.get j' p = Json.get j p := by
  intro path
  induction path with
  | nil =>
    intro j v j' h
    simp only [setAtPath, Option.some.injEq] at h
    subst h
    refine ⟨rfl, ?_⟩
    intro p hp
    rw [pathDiverges_nil_right] at hp
    cases hp
  | cons step rest ih =>
    intro j v j' h
    cases step with
    | key k =>
      cases j with
      | null => simp [setAtPath] at h
      | bool b => simp [setAtPath] at h
      | num q => simp [setAtPath] at h
      | str s => simp [setAtPath] at h
      | arr xs => simp [setAtPath] at h
      | obj fs =>
        cases rest with
        | nil =>
          simp only [setAtPath, Option.some.injEq] at h
          subst h
          constructor
          · simp only [Json.get, lookupField_setField_self]
          · intro p hp
            cases p with
            | nil =>
              rw [pathDiverges_nil_left] at hp
              cases hp
            | cons pe p' =>
              cases pe with
              | idx i => rfl
              | key k' =>
                by_cases hkk : k' = k
                · subst hkk
                  exfalso
                  have hfalse : pathDiverges (PathStep.key k' :: p') [PathStep.key k'] = false := by
                    rw [pathDiverges, if_pos rfl]
                    exact pathDiverges_nil_right p'
                  rw [hfalse] at hp
                  cases hp
                · simp only [Json.get, lookupField_setField_ne fs k v k' hkk]
        | cons r2 rrest =>
          cases hk : lookupField fs k with
          | none => simp [setAtPath, hk] at h
          | some w =>
            cases hw : setAtPath w (r2 :: rrest) v with
            | none => simp [setAtPath, hk, hw] at h
            | some w' =>
              simp only [setAtPath, hk, hw, Option.some.injEq] at h
              subst h
              obtain ⟨ihget, ihframe⟩ := ih w v w' hw
              constructor
              · simp only [Json.get, lookupField_setField_self]
                exact ihget
              · intro p hp
                cases p with
                | nil =>
                  rw [pathDiverges_nil_left] at hp
                  cases hp
                | cons pe p' =>
                  cases pe with
                  | idx i => rfl
                  | key k' =>
                    by_cases hkk : k' = k
                    · subst hkk
                      have hp' : pathDiverges p' (r2 :: rrest) = true := by
                        rw [pathDiverges, if_pos rfl] at hp
                        exact hp
                      simp only [Json.get, lookupField_setField_self, hk]
                      exact ihframe p' hp'
                    · simp only [Json.get, lookupField_setField_ne fs k w' k' hkk]
    | idx i =>
      cases j with
      | null => simp [setAtPath] at h
      | bool b => simp [setAtPath] at h
      | num q => simp [setAtPath] at h
      | str s => simp [setAtPath] at h
      | obj fs => simp [setAtPath] at h
      | arr xs =>
        cases hx : xs[i]? with
        | none => simp [setAtPath, hx] at h
        | some w =>
          cases hw : setAtPath w rest v with
          | none => simp [setAtPath, hx, hw] at h
          | some w' =>
            simp only [setAtPath, hx, hw, Option.some.injEq] at h
            subst h
            obtain ⟨ihget, ihframe⟩ := ih w v w' hw
            have hilen : i < xs.length := by
              obtain ⟨hl, -⟩ := List.getElem?_eq_some_iff.mp hx
              exact hl
            constructor
            · simp only [Json.get, List.getElem?_set_self hilen]
              exact ihget
            · intro p hp
              cases p with
              | nil =>
                rw [pathDiverges_nil_left] at hp
                cases hp
              | cons pe p' =>
                cases pe with
                | key k' => rfl
                | idx jx =>
                  by_cases hji : jx = i
                  · subst hji
                    have hp' : pathDiverges p' rest = true := by
                      rw [pathDiverges, if_pos rfl] at hp
                      exact hp
                    simp only [Json.get, List.getElem?_set_self hilen, hx]
                    exact ihframe p' hp'
                  · simp only [Json.get, List.getElem?_set_ne (fun e => hji e.symm)]

theorem update_outbound_address_eq_setAtPath (cfg : Json) (ip : String) :
    update_outbound_address cfg ip = setAtPath cfg addressPath (.str ip) := by
  cases cfg with
  | null => rfl
  | bool b => rfl
  | num q => rfl
  | str s => rfl
  | arr xs => rfl
  | obj fs =>
    cases h1 : lookupField fs "outbounds" with
    | none => simp [update_outbound_address, addressPath, setAtPath, h1]
    | some w =>
      cases w with
      | null => simp [update_outbound_address, addressPath, setAtPath, h1]
      | bool b => simp [update_outbound_address, addressPath, setAtPath, h1]
      | num q => simp [update_outbound_address, addressPath, setAtPath, h1]
      | str s => simp [update_outbound_address, addressPath, setAtPath, h1]
      | obj fs1 => simp [update_outbound_address, addressPath, setAtPath, h1]
      | arr l1 =>
        cases l1 with
        | nil => simp [update_outbound_address, addressPath, setAtPath, h1]
        | cons ob0 obs =>
          cases ob0 with
          | null => simp [update_outbound_address, addressPath, setAtPath, h1]
          | bool b => simp [update_outbound_address, addressPath, setAtPath, h1]
          | num q => simp [update_outbound_address, addressPath, setAtPath, h1]
          | str s => simp [update_outbound_address, addressPath, setAtPath, h1]
          | arr l0 => simp [update_outbound_address, addressPath, setAtPath, h1]
          | obj obf =>
            cases h2 : lookupField obf "settings" with
            | none => simp [update_outbound_address, addressPath, setAtPath, h1, h2]
            | some w2 =>
              cases w2 with
              | null => simp [update_outbound_address, addressPath, setAtPath, h1, h2]
              | bool b => simp [update_outbound_address, addressPath, setAtPath, h1, h2]
              | num q => simp [update_outbound_address, addressPath, setAtPath, h1, h2]
              | str s => simp [update_outbound_address, addressPath, setAtPath, h1, h2]
              | arr l2 => simp [update_outbound_address, addressPath, setAtPath, h1, h2]
              | obj sf =>
                cases h3 : lookupField sf "vnext" with
                | none => simp [update_outbound_address, addressPath, setAtPath, h1, h2, h3]
                | some w3 =>
                  cases w3 with
                  | null => simp [update_outbound_address, addressPath, setAtPath, h1, h2, h3]
                  | bool b => simp [update_outbound_address, addressPath, setAtPath, h1, h2, h3]
                  | num q => simp [update_outbound_address, addressPath, setAtPath, h1, h2, h3]
                  | str s => simp [update_outbound_address, addressPath, setAtPath, h1, h2, h3]
                  | obj fs3 => simp [update_outbound_address, addressPath, setAtPath, h1, h2, h3]
                  | arr l3 =>
                    cases l3 with
                    | nil => simp [update_outbound_address, addressPath, setAtPath, h1, h2, h3]
                    | cons v0 vs =>
                      cases v0 with
                      | null => simp [update_outbound_address, addressPath, setAtPath, h1, h2, h3]
                      | bool b => simp [update_outbound_address, addressPath, setAtPath, h1, h2, h3]
                      | num q => simp [update_outbound_address, addressPath, setAtPath, h1, h2, h3]
                      | str s => simp [update_outbound_address, addressPath, setAtPath, h1, h2, h3]
                      | arr l4 => simp [update_outbound_address, addressPath, setAtPath, h1, h2, h3]
                      | obj vf => simp [update_outbound_address, addressPath, setAtPath, h1, h2, h3]

/-- Claim C7: on a successful promotion rewrite, the replacement
document holds the new address at
`outbounds[0].settings.vnext[0].address` and agrees with the original
document at every path that diverges from that one (every other field
is preserved); and the rewrite is all-or-nothing at the file level — a
`False` return (unreadable file or any validation error, all raised
before the output is opened) leaves the file content unchanged, so no
half-written intermediate state is ever the file's content. -/
theorem C7_promotion_frame :
    (∀ (cfg : Json) (ip : String) (cfg' : Json),
        update_outbound_address cfg ip = some cfg' →
        Json.get cfg' addressPath = some (.str ip)
        ∧ ∀ p, pathDiverges p addressPath = true → Json.get cfg' p = Json.get cfg p)
    ∧ (∀ (fileCfg : Option Json) (ip : String),
        (update_xray_config_file fileCfg ip).2 = false →
        (update_xray_config_file fileCfg ip).1 = fileCfg) := by
  constructor
  · intro cfg ip cfg' h
    rw [update_outbound_address_eq_setAtPath] at h
    exact setAtPath_spec addressPath cfg (.str ip) cfg' h
  · intro fileCfg ip h
    cases fileCfg with
    | none => rfl
    | some cfg =>
      cases hu : update_outbound_address cfg ip with
      | none => simp [update_xray_config_file, hu]
      | some cfg' => simp [update_xray_config_file, hu] at h

/-- Witness for C7 on a concrete document: the address leaf is
rewritten and the sibling `log` field is untouched. -/
theorem C7_witness :
    Json.get exampleXrayConfigUpdated addressPath = some (.str "5.6.7.8")
    ∧ Json.get exampleXrayConfigUpdated [PathStep.key "log"]
        = Json.get exampleXrayConfig [PathStep.key "log"] := by
  have h := C7_promotion_frame.1 exampleXrayConfig "5.6.7.8" exampleXrayConfigUpdated rfl
  exact ⟨h.1, h.2 [PathStep.key "log"] rfl⟩

/-! ### Claim C8 -/

theorem run_speed_test_speed_eq_zero (ip : String) (acq : AcquirePhase)
    (probe : ℕ → SpeedResult) (N : ℕ) (h : ∀ i, isSuccess (probe i) = false) :
    (run_speed_test ip acq probe N).speed = 0 := by
  have hnn := run_speed_test_speed_nonneg ip acq probe N
  have hnp : ¬ 0 < (run_speed_test ip acq probe N).speed := by
    rw [run_speed_test_speed_pos_iff]
    rintro ⟨-, i, -, hsucc⟩
    rw [h i] at hsucc
    cases hsucc
  linarith

theorem round1_best_speed_zero (ip : String) (acq : ℕ → AcquirePhase)
    (probe : ℕ → ℕ → SpeedResult) (passes N : ℕ)
    (h : ∀ p i, isSuccess (probe p i) = false) :
    (round1_best ip (round1_passResults ip acq probe passes N)).speed = 0 := by
  have hfix : round1_best ip (round1_passResults ip acq probe passes N)
      = round1_initial ip := by
    unfold round1_best
    apply foldl_round1_fold_fixed
    intro r hr
    obtain ⟨p, hp, rfl⟩ := List.mem_map.mp hr
    rw [run_speed_test_speed_eq_zero ip (acq p) (probe p) N (h p)]
    simp [round1_initial]
  rw [hfix]
  rfl

/-- Counterexample to C8 as stated: a screening round that finds only
10 responsive candidates (fewer than `MIN_HAIXUAN_IPS = 50`) makes the
loop iteration reach `sys.exit` (src/yx3.py:239-240 via `print_error`
with `exit_script=True`) — the process terminates instead of
"terminating only the current run". -/
theorem C8_counterexample :
    main_loop_body false true true 10 ["1.1.1.1"]
      (fun _ _ => .ok) (fun _ _ _ => ⟨"1.1.1.1", 0, "Curl Timeout"⟩)
      (fun _ => .ok) (fun _ _ => ⟨"1.1.1.1", 0, "Curl Timeout"⟩)
      ⟨"2.2.2.2", 0, "Config Error"⟩ = .exitProcess := by
  rfl

/-- Claim C8 (amended): an all-zero measurement round (round 1 or
round 2) terminates only the current run — the loop does
`time.sleep(5); continue`, restarting without the configured inter-run
delay, and the process survives; but the screening failure "too few
responsive candidates" is handled by `sys.exit` and terminates the
whole process, not just the run. -/
theorem C8_stage_failures_amended :
    (∀ (resultCsvExists scanOk : Bool) (haixuanCount : ℕ) (candidates : List String)
        (acq1 : String → ℕ → AcquirePhase) (probe1 : String → ℕ → ℕ → SpeedResult)
        (acq2 : String → AcquirePhase) (probe2 : String → ℕ → SpeedResult)
        (baseline : SpeedResult),
        haixuanCount < Config.MIN_HAIXUAN_IPS →
        main_loop_body false resultCsvExists scanOk haixuanCount candidates
          acq1 probe1 acq2 probe2 baseline = .exitProcess)
    ∧ (∀ (scanOk : Bool) (haixuanCount : ℕ) (candidates : List String)
        (acq1 : String → ℕ → AcquirePhase) (probe1 : String → ℕ → ℕ → SpeedResult)
        (acq2 : String → AcquirePhase) (probe2 : String → ℕ → SpeedResult)
        (baseline : SpeedResult),
        candidates ≠ [] →
        (∀ ip p i, isSuccess (probe1 ip p i) = false) →
        main_loop_body true true scanOk haixuanCount candidates
          acq1 probe1 acq2 probe2 baseline = .retryAfterShortDelay)
    ∧ (∀ (scanOk : Bool) (haixuanCount : ℕ) (candidates : List String)
        (acq1 : String → ℕ → AcquirePhase) (probe1 : String → ℕ → ℕ → SpeedResult)
        (acq2 : String → AcquirePhase) (probe2 : String → ℕ → SpeedResult)
        (baseline : SpeedResult),
        candidates ≠ [] →
        (∃ ip ∈ candidates.take Config.ROUND1_CANDIDATES, ∃ p < Config.ROUND1_PASSES,
            acq1 ip p = .ok
            ∧ ∃ i < Config.ROUND1_TEST_COUNT, isSuccess (probe1 ip p i) = true) →
        (∀ ip i, isSuccess (probe2 ip i) = false) →
        main_loop_body true true scanOk haixuanCount candidates
          acq1 probe1 acq2 probe2 baseline = .retryAfterShortDelay) := by
  refine ⟨?_, ?_, ?_⟩
  · intro resultCsvExists scanOk haixuanCount candidates acq1 probe1 acq2 probe2 baseline hcount
    have hdec : decide (haixuanCount < Config.MIN_HAIXUAN_IPS) = true := decide_eq_true hcount
    have hscreen : screening_fails false resultCsvExists scanOk haixuanCount = true := by
      simp [screening_fails, hdec]
    simp [main_loop_body, hscreen]
  · intro scanOk haixuanCount candidates acq1 probe1 acq2 probe2 baseline hc h1
    obtain ⟨c, cs, rfl⟩ := List.exists_cons_of_ne_nil hc
    have hzero : ∀ ip : String,
        (round1_best ip (round1_passResults ip (acq1 ip) (probe1 ip)
          Config.ROUND1_PASSES Config.ROUND1_TEST_COUNT)).speed = 0 :=
      fun ip => round1_best_speed_zero ip (acq1 ip) (probe1 ip) _ _ (fun p i => h1 ip p i)
    have hany : (sort_by_speed_desc (round1_results_of (c :: cs) acq1 probe1)).any
        (fun r => decide (0 < r.speed)) = false := by
      apply List.any_eq_false.mpr
      intro r hr
      have hr' : r ∈ round1_results_of (c :: cs) acq1 probe1 := List.mem_mergeSort.mp hr
      rw [round1_results_of] at hr'
      obtain ⟨ip, hip, rfl⟩ := List.mem_map.mp hr'
      simp [hzero ip]
    have hscreen : screening_fails true true scanOk haixuanCount = false := rfl
    rw [main_loop_body, hscreen, if_neg Bool.false_ne_true, round_phase]
    rw [hany]
    rfl
  · intro scanOk haixuanCount candidates acq1 probe1 acq2 probe2 baseline hc hex h2
    obtain ⟨c, cs, rfl⟩ := List.exists_cons_of_ne_nil hc
    obtain ⟨ip, hip, p, hp, hacq, i, hi, hsucc⟩ := hex
    have hpassPos : 0 < (run_speed_test ip (acq1 ip p) (probe1 ip p)
        Config.ROUND1_TEST_COUNT).speed :=
      (run_speed_test_speed_pos_iff ip (acq1 ip p) (probe1 ip p) _).mpr
        ⟨hacq, i, hi, hsucc⟩
    have hmemPass : run_speed_test ip (acq1 ip p) (probe1 ip p) Config.ROUND1_TEST_COUNT
        ∈ round1_passResults ip (acq1 ip) (probe1 ip)
            Config.ROUND1_PASSES Config.ROUND1_TEST_COUNT :=
      List.mem_map_of_mem _ (List.mem_range.mpr hp)
    have hrecPos : 0 < (round1_best ip (round1_passResults ip (acq1 ip) (probe1 ip)
        Config.ROUND1_PASSES Config.ROUND1_TEST_COUNT)).speed := by
      have hub : (run_speed_test ip (acq1 ip p) (probe1 ip p)
          Config.ROUND1_TEST_COUNT).speed
          ≤ (round1_best ip (round1_passResults ip (acq1 ip) (probe1 ip)
              Config.ROUND1_PASSES Config.ROUND1_TEST_COUNT)).speed := by
        unfold round1_best
        rw [foldl_round1_fold_speed]
        exact mem_le_foldl_max _ _ _ (List.mem_map_of_mem (fun r => r.speed) hmemPass)
      linarith
    have hanyT : (sort_by_speed_desc (round1_results_of (c :: cs) acq1 probe1)).any
        (fun r => decide (0 < r.speed)) = true := by
      apply List.any_eq_true.mpr
      refine ⟨round1_best ip (round1_passResults ip (acq1 ip) (probe1 ip)
          Config.ROUND1_PASSES Config.ROUND1_TEST_COUNT), ?_, decide_eq_true hrecPos⟩
      apply List.mem_mergeSort.mpr
      rw [round1_results_of]
      exact List.mem_map_of_mem _ hip
    have hany2 : ∀ sorted1 : List SpeedResult,
        (sort_by_speed_desc (round2_results_of sorted1 acq2 probe2)).any
          (fun r => decide (0 < r.speed)) = false := by
      intro sorted1
      apply List.any_eq_false.mpr
      intro r hr
      have hr' : r ∈ round2_results_of sorted1 acq2 probe2 := List.mem_mergeSort.mp hr
      rw [round2_results_of] at hr'
      obtain ⟨ip', hip', rfl⟩ := List.mem_map.mp hr'
      simp [run_speed_test_speed_eq_zero ip' (acq2 ip') (probe2 ip') 1 (h2 ip')]
    have hscreen : screening_fails true true scanOk haixuanCount = false := rfl
    rw [main_loop_body, hscreen, if_neg Bool.false_ne_true, round_phase]
    rw [hanyT]
    rw [if_neg (show ¬ ((!true) = true) by decide)]
    simp only [hany2]
    rfl

/-- Witness for C8 at a concrete all-failing round 1: the loop retries
after the short delay instead of exiting. -/
theorem C8_witness :
    main_loop_body true true true 0 ["1.1.1.1"]
      (fun _ _ => .ok) (fun _ _ _ => ⟨"1.1.1.1", 0, "Curl Timeout"⟩)
      (fun _ => .ok) (fun _ _ => ⟨"1.1.1.1", 0, "Curl Timeout"⟩)
      ⟨"2.2.2.2", 50, "OK"⟩ = .retryAfterShortDelay :=
  C8_stage_failures_amended.2.1 true 0 ["1.1.1.1"]
    (fun _ _ => .ok) (fun _ _ _ => ⟨"1.1.1.1", 0, "Curl Timeout"⟩)
    (fun _ => .ok) (fun _ _ => ⟨"1.1.1.1", 0, "Curl Timeout"⟩)
    ⟨"2.2.2.2", 50, "OK"⟩ (by simp)
    (fun _ _ _ => (by decide : isSuccess ⟨"1.1.1.1", 0, "Curl Timeout"⟩ = false))

end Yx3
